import Mathlib

/-
Verification development for the vibecoins wallet engine
(src/lib/wallet.js and the single-wallet variant in src/unnamed/part_002).

The engine is embedded shallowly:
  * The cryptographic primitives (PBKDF2 key derivation, AES-256-GCM
    authenticated encryption, secp256k1 address derivation/signing from
    ethers) are out of scope of the specification ("treated as a correct,
    given primitive"), so they are modelled as an abstract structure of
    functions together with the standard correctness laws of an ideal
    authenticated cipher; a concrete executable instance witnesses that
    the laws are satisfiable.
  * The wallet operations (createWallet, signMessage, transfer,
    collectFees, migrateWalletIfNeeded, loadWallets) are translated
    statement by statement from the JavaScript source.  Randomness
    (fresh salt/iv, fresh key pair, Date.now) and collaborator responses
    (provider.getBalance, fetch results, transaction receipts) are
    explicit parameters, and every externally visible side effect
    (broadcast, HTTP POST, contract call, file save) is recorded in an
    effect trace returned alongside the result.
  * JavaScript exceptions are modelled with Except; the literal error
    strings of the source are kept verbatim.
-/

namespace Vibecoins

/-! ## String utilities

JavaScript's String.prototype.includes, modelled on the character list of
a Lean String. -/

/-- Boolean prefix test on character lists. -/
def prefixOfCL : List Char → List Char → Bool
  | [], _ => true
  | _ :: _, [] => false
  | a :: as, b :: bs => a = b && prefixOfCL as bs

/-- Boolean infix test on character lists: does sub occur inside s? -/
def listIncludes (sub : List Char) : List Char → Bool
  | [] => sub.isEmpty
  | c :: rest => prefixOfCL sub (c :: rest) || listIncludes sub rest

/-- JavaScript s.includes(sub). -/
def strIncludes (s sub : String) : Bool :=
  listIncludes sub.data s.data

/-! ## ethers.formatEther

ethers v6 formatEther: wei (an unsigned big integer here) rendered as a
decimal ETH string with the trailing zeros of the fractional part
removed, keeping at least one fractional digit. -/

/-- Drop trailing zeros of a digit list, keeping at least one digit. -/
def trimFracDigits (l : List Char) : List Char :=
  match (l.reverse.dropWhile (fun c => c = '0')) with
  | [] => ['0']
  | r => r.reverse

/-- Pad a decimal string to 18 digits on the left with zeros. -/
def padTo18 (s : String) : String :=
  String.mk (List.replicate (18 - s.length) '0') ++ s

/-- ethers.formatEther on a wei amount. -/
def formatEther (wei : Nat) : String :=
  let whole := wei / (10 ^ 18)
  let frac := wei % (10 ^ 18)
  toString whole ++ "." ++ String.mk (trimFracDigits (padTo18 (toString frac)).data)

/-! ## The abstract cryptographic primitive

PBKDF2-SHA256 with 100000 iterations plus AES-256-GCM, as used by
encrypt/decrypt in wallet.js.  Node's GCM decipher throws a single error
when the authentication tag does not verify; its message is the constant
below, and the wallet code recognises it by substring. -/

/-- Node.js error message thrown by an AES-GCM decipher on authentication
failure (the single collapsed failure of the envelope cipher). -/
def gcmAuthError : String := "Unsupported state or unable to authenticate data"

/-- Abstract interface of the given cryptographic primitive: a password
based key-derivation function and an authenticated symmetric cipher, with
the ideal-cipher laws the specification assumes of it.  aeadDec either
returns the plaintext or throws the single authentication error. -/
structure CryptoPrim where
  Key : Type
  Tag : Type
  Ct : Type
  deriveKey : String → String → Key
  aeadEnc : Key → String → String → Tag × Ct
  aeadDec : Key → String → Tag → Ct → Except String String
  deriveKey_inj : ∀ p p' s, p ≠ p' → deriveKey p s ≠ deriveKey p' s
  dec_enc : ∀ k iv m, aeadDec k iv (aeadEnc k iv m).1 (aeadEnc k iv m).2 = .ok m
  dec_wrong : ∀ k k' iv m, k' ≠ k →
    aeadDec k' iv (aeadEnc k iv m).1 (aeadEnc k iv m).2 = .error gcmAuthError
  dec_err : ∀ k iv t c e, aeadDec k iv t c = .error e → e = gcmAuthError

/-- The salt/iv/authTag/ciphertext quadruple produced by encrypt
(wallet.js lines 52-57). -/
structure Envelope (P : CryptoPrim) where
  salt : String
  iv : String
  tag : P.Tag
  encrypted : P.Ct

/-- encrypt(text, password) from wallet.js: the fresh random salt and iv
are explicit parameters, the key is derived from password and salt, and
the cipher output is packed into an Envelope. -/
def encrypt (P : CryptoPrim) (salt iv text password : String) : Envelope P :=
  let key := P.deriveKey password salt
  let out := P.aeadEnc key iv text
  { salt := salt, iv := iv, tag := out.1, encrypted := out.2 }

/-- decrypt(encryptedData, password) from wallet.js: re-derive the key
from the stored salt, then attempt authenticated decryption; an error is
the thrown GCM authentication failure. -/
def decrypt (P : CryptoPrim) (e : Envelope P) (password : String) : Except String String :=
  let key := P.deriveKey password e.salt
  P.aeadDec key e.iv e.tag e.encrypted

/-- A concrete executable instance of the ideal primitive, used by the
witnesses: the key is the (password, salt) pair itself, the tag stores
the key, the ciphertext stores the plaintext, and decryption checks the
key against the tag. -/
def idealPrim : CryptoPrim where
  Key := String × String
  Tag := String × String
  Ct := String
  deriveKey p s := (p, s)
  aeadEnc k _ m := (k, m)
  aeadDec k _ t c := if t = k then .ok c else .error gcmAuthError
  deriveKey_inj := by
    intro p p' s hne h
    exact hne (congrArg Prod.fst h)
  dec_enc := by intro k iv m; simp
  dec_wrong := by intro k k' iv m h; simp [Ne.symm h]
  dec_err := by
    intro k iv t c e h
    by_cases htk : t = k
    · simp [htk] at h
    · simpa [htk] using h.symm

/-! ## The catch-clause error classifier

signMessage, transfer and collectFees all end in the same catch clause
(wallet.js lines 186-197, 294-305, 395-406): a caught error is reported
as "Invalid password" exactly when its message contains the substring
"Unsupported state" or the substring "auth". -/

/-- The condition of the shared catch clause. -/
def isAuthLikeError (msg : String) : Bool :=
  strIncludes msg "Unsupported state" || strIncludes msg "auth"

/-- The error string a catch clause produces from a caught message, given
the operation-specific failure text used on the non-password branch. -/
def catchError (opFailText msg : String) : String :=
  if isAuthLikeError msg then "Invalid password" else opFailText ++ msg

/-! ## The abstract ethers primitive

Address derivation, message signing, address well-formedness and unit
parsing from the ethers library, treated as a given primitive.  A private
key is the hex string returned by decrypt. -/

/-- Abstract interface of the ethers functions the wallet uses. -/
structure EthersPrim where
  addrOf : String → String
  signMsg : String → String → String
  isAddress : String → Bool
  parseEther : String → Nat

/-- Concrete executable ethers instance used by the witnesses. -/
def idealEthers : EthersPrim where
  addrOf k := "0xaddr" ++ k
  signMsg k m := "sig:" ++ k ++ ":" ++ m
  isAddress a := prefixOfCL ['0', 'x'] a.data
  parseEther s := s.data.length

/-! ## The keystore data model (wallet.js) -/

/-- One stored wallet record: wallets[userId] in wallet.js lines 94-98. -/
structure WalletRecord (P : CryptoPrim) where
  address : String
  encryptedKey : Envelope P
  createdAt : String

/-- The wallets.json document: a mapping userId to record. -/
abbrev Store (P : CryptoPrim) := List (String × WalletRecord P)

/-- A confirmation receipt from tx.wait(). -/
structure Receipt where
  hash : String
  blockNumber : Nat
deriving DecidableEq

/-- Externally visible side effects of a wallet operation, recorded in
the order the source performs them. -/
inductive Effect
  | genRandomWallet
  | encryptSecret
  | saveStore
  | broadcast (toAddr : String) (valueWei : Nat)
  | postCollectFees (walletAddress message signature : String)
  | fetchConfig
  | callClaimFees (hookAddr recipient : String)
deriving DecidableEq

/-! ## createWallet (wallet.js lines 77-108)

The fresh random key pair, the fresh salt/iv drawn by encrypt and the
creation timestamp are explicit parameters. -/

/-- Result of createWallet. -/
inductive CreateResult
  | failure (error : String)
  | success (address message warning : String)
deriving DecidableEq

/-- createWallet(userId, password): returns the result, the resulting
store content, and the effect trace. -/
def createWallet (P : CryptoPrim) (E : EthersPrim) (wallets : Store P)
    (userId password freshKey salt iv nowIso : String) :
    CreateResult × Store P × List Effect :=
  match (List.lookup userId wallets : Option (WalletRecord P)) with
  | some _ =>
      (.failure "Wallet already exists for this user. Use \"get\" to retrieve it.",
       wallets, [])
  | none =>
      let address := E.addrOf freshKey
      let encryptedKey := encrypt P salt iv freshKey password
      let wallets2 := wallets ++ [(userId, ⟨address, encryptedKey, nowIso⟩)]
      (.success address
        "Wallet created! This is where your fees from coin launches will be sent."
        "CRITICAL: Your password is the ONLY way to access this wallet. There is NO recovery option. If you lose your password, your wallet and all funds are permanently lost!",
       wallets2, [.genRandomWallet, .encryptSecret, .saveStore])

/-! ## signMessage (wallet.js lines 165-198)

The single try/catch wraps everything from decrypt to signing;
thrownErr injects an exception raised by the ethers calls after a
successful decryption (none when those calls succeed). -/

/-- Result of signMessage: the success object has exactly the fields
address, message, signature. -/
inductive SignResult
  | failure (error : String)
  | success (address message signature : String)
deriving DecidableEq

/-- signMessage(userId, password, message). -/
def signMessage (P : CryptoPrim) (E : EthersPrim) (wallets : Store P)
    (userId password message : String) (thrownErr : Option String) : SignResult :=
  match (List.lookup userId wallets : Option (WalletRecord P)) with
  | none => .failure "No wallet found"
  | some w =>
    match decrypt P w.encryptedKey password with
    | .error e => .failure (catchError "Signing failed: " e)
    | .ok privateKey =>
      match thrownErr with
      | some e => .failure (catchError "Signing failed: " e)
      | none => .success (E.addrOf privateKey) message (E.signMsg privateKey message)

/-! ## transfer (wallet.js lines 242-306) -/

/-- Result of transfer. -/
inductive TransferResult
  | failure (error : String)
  | success (transactionHash fromAddr toAddr amountEth unitName : String)
      (blockNumber : Nat)
deriving DecidableEq

/-- transfer(userId, password, toAddress, amount): balanceOf is
provider.getBalance, receipt is the awaited confirmation, thrownErr
injects an exception raised inside the try block after a successful
decryption.  Returns the result and the effect trace. -/
def transfer (P : CryptoPrim) (E : EthersPrim) (wallets : Store P)
    (userId password toAddress amount : String)
    (balanceOf : String → Nat) (receipt : Receipt) (thrownErr : Option String) :
    TransferResult × List Effect :=
  match (List.lookup userId wallets : Option (WalletRecord P)) with
  | none => (.failure "No wallet found", [])
  | some w =>
    if !E.isAddress toAddress then
      (.failure "Invalid destination address", [])
    else
      match decrypt P w.encryptedKey password with
      | .error e => (.failure (catchError "Transfer failed: " e), [])
      | .ok privateKey =>
        match thrownErr with
        | some e => (.failure (catchError "Transfer failed: " e), [])
        | none =>
          let address := E.addrOf privateKey
          let balance := balanceOf address
          let amountWei := E.parseEther amount
          if balance < amountWei then
            (.failure ("Insufficient balance. You have " ++ formatEther balance ++
               " ETH but tried to send " ++ amount ++ " ETH"), [])
          else
            (.success receipt.hash address toAddress amount "ETH" receipt.blockNumber,
             [.broadcast toAddress amountWei])

/-! ## collectFees (wallet.js lines 313-407)

Branching on the gas balance of the unlocked address: balance zero takes
the sponsored path (sign an off-chain claim message and POST it to the
collection endpoint /api/collect-fees); nonzero balance takes the direct
path (fetch /api/config and invoke claimFees on-chain). -/

/-- The off-chain claim message of the sponsored path
(wallet.js line 331). -/
def claimMessage (address : String) (nowMs : Nat) : String :=
  "Collect fees for " ++ address ++ "\nTimestamp: " ++ toString nowMs

/-- Response of the POST to /api/collect-fees: response.ok plus the
error field of its JSON body when present. -/
structure ApiResponse where
  ok : Bool
  errorField : Option String
deriving DecidableEq

/-- Result of collectFees: a success carries the literal method tag of
the source ("api" on the sponsored path, "direct" on the direct path). -/
inductive CollectResult
  | failure (error : String)
  | success (method message : String) (transactionHash : Option String)
      (blockNumber : Option Nat)
deriving DecidableEq

/-- collectFees(userId, password, apiBaseUrl): nowMs is Date.now(),
apiResp the /api/collect-fees response, configOk and feeHookAddress the
/api/config response, receipt the awaited direct-path confirmation,
thrownErr an exception raised inside the try block after a successful
decryption.  Returns the result and the effect trace. -/
def collectFees (P : CryptoPrim) (E : EthersPrim) (wallets : Store P)
    (userId password : String) (balanceOf : String → Nat) (nowMs : Nat)
    (apiResp : ApiResponse) (configOk : Bool) (feeHookAddress : Option String)
    (receipt : Receipt) (thrownErr : Option String) :
    CollectResult × List Effect :=
  match (List.lookup userId wallets : Option (WalletRecord P)) with
  | none => (.failure "No wallet found", [])
  | some w =>
    match decrypt P w.encryptedKey password with
    | .error e => (.failure (catchError "Fee collection failed: " e), [])
    | .ok privateKey =>
      match thrownErr with
      | some e => (.failure (catchError "Fee collection failed: " e), [])
      | none =>
        let address := E.addrOf privateKey
        let balance := balanceOf address
        if balance = 0 then
          let message := claimMessage address nowMs
          let signature := E.signMsg privateKey message
          let effects := [Effect.postCollectFees address message signature]
          if !apiResp.ok then
            (.failure (apiResp.errorField.getD "API request failed"), effects)
          else
            (.success "api" "Fees collected via API (we paid the gas for you)"
               none none, effects)
        else
          if !configOk then
            (.failure "Failed to fetch contract config from API", [.fetchConfig])
          else
            match feeHookAddress with
            | none =>
                (.failure "Fee hook contract address not configured", [.fetchConfig])
            | some hookAddr =>
                (.success "direct" "Fees collected directly from contract (you paid gas)"
                   (some receipt.hash) (some receipt.blockNumber),
                 [.fetchConfig, .callClaimFees hookAddr address])

/-! ## loadWallets / saveWallets (wallet.js lines 24-36)

Neither function catches anything: a thrown readFileSync or writeFileSync
error and a thrown JSON.parse SyntaxError both escape to the caller.
The file parameter is the state of wallets.json: absent, unreadable with
an I/O error message, or readable with its text content. -/

/-- The two kinds of exceptions a keystore file access can raise: a file
I/O error and a JSON parse error on the read content. -/
inductive StoreErr
  | storage (msg : String)
  | corrupt (data : String)
deriving DecidableEq

/-- loadWallets(): absent file yields the empty store; a read error and a
parse failure propagate unchanged. -/
def loadWallets {α : Type} (parseJson : String → Option α) (emptyStore : α)
    (file : Option (Except String String)) : Except StoreErr α :=
  match file with
  | none => .ok emptyStore
  | some (.error e) => .error (.storage e)
  | some (.ok data) =>
    match parseJson data with
    | none => .error (.corrupt data)
    | some s => .ok s

/-- saveWallets(wallets): a write error propagates unchanged. -/
def saveWallets (writeResult : Except String Unit) : Except StoreErr Unit :=
  match writeResult with
  | .error e => .error (.storage e)
  | .ok _ => .ok ()

/-! ## migrateWalletIfNeeded (src/unnamed/part_002 lines 21-50)

The filesystem state is the pair of the canonical wallet file and the
deprecated-location wallet file (absent or their text content).  copyErr
injects a thrown error from the copy step inside the try block (none
when the copy and delete succeed); the catch clause logs it and returns
normally, so the function never raises. -/

/-- State of the two wallet file locations. -/
structure MigFS where
  canonical : Option String
  legacy : Option String
deriving DecidableEq

/-- migrateWalletIfNeeded(): returns what the caller observes (always
ok, since the catch swallows), the resulting filesystem state, and the
console log lines. -/
def migrateWalletIfNeeded (fs : MigFS) (copyErr : Option String) :
    Except String Unit × MigFS × List String :=
  match fs.canonical with
  | some _ => (.ok (), fs, [])
  | none =>
    match fs.legacy with
    | none => (.ok (), fs, [])
    | some walletData =>
      match copyErr with
      | some errMsg =>
          (.ok (), fs, ["[vibecoin] Failed to migrate wallet: " ++ errMsg])
      | none =>
          (.ok (), { canonical := some walletData, legacy := none },
           ["[vibecoin] Migrated wallet to ~/.vibecoin/wallet.json"])

/-- The multiset of wallet records present across the two locations. -/
def migRecords (fs : MigFS) : List String :=
  fs.canonical.toList ++ fs.legacy.toList

/-! ## Concrete fixtures for the witnesses -/

/-- A sample envelope sealed under password pw0 with the ideal primitive. -/
def sampleEnvelope : Envelope idealPrim :=
  encrypt idealPrim "salt0" "iv0" "priv0" "pw0"

/-- A sample keystore record for the sample envelope. -/
def sampleRecord : WalletRecord idealPrim :=
  ⟨idealEthers.addrOf "priv0", sampleEnvelope, "2024-01-01T00:00:00Z"⟩

/-- A sample store holding the sample record under user u1. -/
def sampleStore : Store idealPrim := [("u1", sampleRecord)]

/-! ## Helper lemmas -/

/-- Helper: a catch-clause failure text built from an operation-specific
message never collides with the literal Invalid password string (their
first characters differ). -/
theorem signing_failed_ne (m : String) :
    "Signing failed: " ++ m ≠ "Invalid password" := by
  intro h
  have h2 := congrArg (fun s : String => s.data.head?) h
  simp at h2

/-! ## Claim theorems -/

/-- C1: round-trip of the Envelope Cipher: for every secret S and every
password P, decrypting the envelope produced by sealing S under P with that
same password returns exactly S. -/
theorem envelope_roundtrip (P : CryptoPrim) (salt iv S pw : String) :
    decrypt P (encrypt P salt iv S pw) pw = .ok S := by
  simpa [decrypt, encrypt] using P.dec_enc (P.deriveKey pw salt) iv S

/-- Witness for C1 at concrete inputs. -/
theorem envelope_roundtrip_witness :
    decrypt idealPrim (encrypt idealPrim "s" "i" "secret" "pw") "pw" = .ok "secret" :=
  envelope_roundtrip idealPrim "s" "i" "secret" "pw"

/-- C2: opening an envelope sealed under p1 with a different password p2
fails with the single collapsed GCM authentication error and never returns
plaintext; every decrypt failure is that same collapsed error (a wrong
password is indistinguishable from a corrupted envelope); and the catch
clauses surface that error to the caller as Invalid password. -/
theorem envelope_wrong_password (P : CryptoPrim) (salt iv S p1 p2 : String)
    (h : p1 ≠ p2) :
    decrypt P (encrypt P salt iv S p1) p2 = .error gcmAuthError ∧
    (∀ (e : Envelope P) (pw msg : String),
        decrypt P e pw = .error msg → msg = gcmAuthError) ∧
    (∀ opFailText : String, catchError opFailText gcmAuthError = "Invalid password") := by
  refine ⟨?_, ?_, ?_⟩
  · have hk : P.deriveKey p2 salt ≠ P.deriveKey p1 salt :=
      P.deriveKey_inj p2 p1 salt (Ne.symm h)
    simpa [decrypt, encrypt] using
      P.dec_wrong (P.deriveKey p1 salt) (P.deriveKey p2 salt) iv S hk
  · intro e pw msg hm
    exact P.dec_err _ _ _ _ _ hm
  · intro opFailText
    rfl

/-- Witness for C2 at concrete distinct passwords. -/
theorem envelope_wrong_password_witness :
    decrypt idealPrim (encrypt idealPrim "s" "i" "secret" "pwA") "pwB" =
      .error gcmAuthError :=
  (envelope_wrong_password idealPrim "s" "i" "secret" "pwA" "pwB" (by decide)).1

/-- C5: a createWallet call for an identity that already has a record
returns the already-exists failure, leaves the store exactly as it was, and
performs no key generation, no encryption and no save. -/
theorem createWallet_already_exists (P : CryptoPrim) (E : EthersPrim)
    (wallets : Store P) (userId password freshKey salt iv nowIso : String)
    (r : WalletRecord P) (hr : List.lookup userId wallets = some r) :
    createWallet P E wallets userId password freshKey salt iv nowIso =
      (.failure "Wallet already exists for this user. Use \"get\" to retrieve it.",
       wallets, []) := by
  simp [createWallet, hr]

/-- Witness for C5: a concrete first create followed by a second create for
the same identity, which fails and leaves the store of the first call
unchanged. -/
theorem createWallet_already_exists_witness :
    createWallet idealPrim idealEthers
        (createWallet idealPrim idealEthers [] "u1" "pw" "key1" "s1" "i1" "t1").2.1
        "u1" "pw2" "key2" "s2" "i2" "t2" =
      (.failure "Wallet already exists for this user. Use \"get\" to retrieve it.",
       (createWallet idealPrim idealEthers [] "u1" "pw" "key1" "s1" "i1" "t1").2.1,
       []) :=
  createWallet_already_exists idealPrim idealEthers _ "u1" "pw2" "key2" "s2" "i2" "t2"
    ⟨idealEthers.addrOf "key1", encrypt idealPrim "s1" "i1" "key1" "pw", "t1"⟩ rfl

/-- C6: the legacy migration never runs when the canonical store exists; a
legacy-only record is copied to the canonical location and the deprecated
file is deleted; the set of stored records is preserved (nothing duplicated
or lost); and a second run is a no-op. -/
theorem migrate_idempotent (fs : MigFS) :
    (fs.canonical.isSome → migrateWalletIfNeeded fs none = (.ok (), fs, [])) ∧
    (∀ d, fs.canonical = none → fs.legacy = some d →
        migrateWalletIfNeeded fs none =
          (.ok (), ⟨some d, none⟩,
           ["[vibecoin] Migrated wallet to ~/.vibecoin/wallet.json"])) ∧
    migRecords (migrateWalletIfNeeded fs none).2.1 = migRecords fs ∧
    (migrateWalletIfNeeded (migrateWalletIfNeeded fs none).2.1 none).2.1 =
      (migrateWalletIfNeeded fs none).2.1 := by
  obtain ⟨c, l⟩ := fs
  cases c <;> cases l <;> simp [migrateWalletIfNeeded, migRecords]

/-- Witness for C6 on a concrete legacy-only filesystem state. -/
theorem migrate_idempotent_witness :
    migrateWalletIfNeeded ⟨none, some "rec"⟩ none =
      (.ok (), ⟨some "rec", none⟩,
       ["[vibecoin] Migrated wallet to ~/.vibecoin/wallet.json"]) :=
  (migrate_idempotent ⟨none, some "rec"⟩).2.1 "rec" rfl rfl

/-- C7 counterexample: a file I/O failure during the legacy migration is
caught and only logged; the caller observes a normal ok return rather than
an error result, so this keystore operation silently swallows a storage
failure. -/
theorem migration_swallows_storage_failure :
    migrateWalletIfNeeded ⟨none, some "walletdata"⟩ (some "EACCES: permission denied") =
      (.ok (), ⟨none, some "walletdata"⟩,
       ["[vibecoin] Failed to migrate wallet: EACCES: permission denied"]) := rfl

/-- C7 (amended): keystore load and save propagate file I/O errors, a
malformed store read propagates as the distinct parse failure with no
recovery, but the legacy migration is the exception: it never surfaces a
storage failure to its caller (its catch clause logs and returns normally). -/
theorem keystore_error_propagation {α : Type} (parseJson : String → Option α)
    (emptyStore : α) (ioMsg data writeMsg : String) (fs : MigFS)
    (copyErr : Option String) (hp : parseJson data = none) :
    loadWallets parseJson emptyStore (some (.error ioMsg)) = .error (.storage ioMsg) ∧
    loadWallets parseJson emptyStore (some (.ok data)) = .error (.corrupt data) ∧
    saveWallets (.error writeMsg) = .error (.storage writeMsg) ∧
    (migrateWalletIfNeeded fs copyErr).1 = .ok () := by
  refine ⟨rfl, ?_, rfl, ?_⟩
  · simp [loadWallets, hp]
  · obtain ⟨c, l⟩ := fs
    cases c <;> cases l <;> cases copyErr <;> rfl

/-- Witness for C7 (amended) at concrete inputs. -/
theorem keystore_error_propagation_witness :
    loadWallets (fun _ => (none : Option Unit)) () (some (.error "EIO")) =
      .error (.storage "EIO") ∧
    loadWallets (fun _ => (none : Option Unit)) () (some (.ok "notjson")) =
      .error (.corrupt "notjson") ∧
    saveWallets (.error "ENOSPC") = .error (.storage "ENOSPC") ∧
    (migrateWalletIfNeeded ⟨none, some "rec"⟩ (some "EIO")).1 = .ok () :=
  keystore_error_propagation (fun _ => none) () "EIO" "notjson" "ENOSPC"
    ⟨none, some "rec"⟩ (some "EIO") rfl

/-- C10: the balance guard of transfer is strict: a transfer of exactly the
full on-chain balance passes the insufficient-balance check and proceeds to
broadcast. -/
theorem transfer_equal_balance_broadcasts (P : CryptoPrim) (E : EthersPrim)
    (wallets : Store P) (userId password toAddress amount : String)
    (balanceOf : String → Nat) (receipt : Receipt)
    (w : WalletRecord P) (hw : List.lookup userId wallets = some w)
    (k : String) (hk : decrypt P w.encryptedKey password = .ok k)
    (haddr : E.isAddress toAddress = true)
    (hbal : balanceOf (E.addrOf k) = E.parseEther amount) :
    transfer P E wallets userId password toAddress amount balanceOf receipt none =
      (.success receipt.hash (E.addrOf k) toAddress amount "ETH" receipt.blockNumber,
       [.broadcast toAddress (E.parseEther amount)]) := by
  simp [transfer, hw, haddr, hk, hbal]

/-- Witness for C10: a concrete transfer of the entire balance reaches the
broadcast. -/
theorem transfer_equal_balance_broadcasts_witness :
    transfer idealPrim idealEthers sampleStore "u1" "pw0" "0xdest" "5"
        (fun _ => 1) ⟨"0xh", 3⟩ none =
      (.success "0xh" (idealEthers.addrOf "priv0") "0xdest" "5" "ETH" 3,
       [.broadcast "0xdest" (idealEthers.parseEther "5")]) :=
  transfer_equal_balance_broadcasts idealPrim idealEthers sampleStore "u1" "pw0"
    "0xdest" "5" (fun _ => 1) ⟨"0xh", 3⟩ sampleRecord rfl "priv0" rfl rfl (by rfl)

/-- C3 counterexample: with zero balance the sponsored path is taken and
succeeds, but the result's method tag is the source's literal "api", not
"sponsored". -/
theorem collectFees_sponsored_tag_cex :
    (collectFees idealPrim idealEthers sampleStore "u1" "pw0" (fun _ => 0)
        1700000000000 ⟨true, none⟩ true none ⟨"0xh", 1⟩ none).1 =
      .success "api" "Fees collected via API (we paid the gas for you)" none none ∧
    "api" ≠ "sponsored" := by
  exact ⟨rfl, by decide⟩

/-- C3 (amended): with zero balance collectFees takes the sponsored path:
it signs the address-plus-timestamp claim message and POSTs exactly that to
the collection endpoint, performs no config fetch and no on-chain claim
call, and a successful response is tagged with the method name "api" (the
source's tag for the sponsored path); with nonzero balance it takes the
direct path: the collection endpoint is never POSTed, and with a configured
hook address the on-chain claim entry point is invoked and the result is
tagged method "direct". -/
theorem collectFees_branch (P : CryptoPrim) (E : EthersPrim) (wallets : Store P)
    (userId password : String) (balanceOf : String → Nat) (nowMs : Nat)
    (apiResp : ApiResponse) (configOk : Bool) (feeHookAddress : Option String)
    (receipt : Receipt)
    (w : WalletRecord P) (hw : List.lookup userId wallets = some w)
    (k : String) (hk : decrypt P w.encryptedKey password = .ok k) :
    (balanceOf (E.addrOf k) = 0 →
      (collectFees P E wallets userId password balanceOf nowMs apiResp configOk
          feeHookAddress receipt none).2 =
        [.postCollectFees (E.addrOf k) (claimMessage (E.addrOf k) nowMs)
           (E.signMsg k (claimMessage (E.addrOf k) nowMs))] ∧
      (apiResp.ok = true →
        (collectFees P E wallets userId password balanceOf nowMs apiResp configOk
            feeHookAddress receipt none).1 =
          .success "api" "Fees collected via API (we paid the gas for you)"
            none none)) ∧
    (balanceOf (E.addrOf k) ≠ 0 →
      (∀ a m s, Effect.postCollectFees a m s ∉
          (collectFees P E wallets userId password balanceOf nowMs apiResp configOk
              feeHookAddress receipt none).2) ∧
      (configOk = true → ∀ hookAddr, feeHookAddress = some hookAddr →
        (collectFees P E wallets userId password balanceOf nowMs apiResp configOk
            feeHookAddress receipt none).1 =
          .success "direct" "Fees collected directly from contract (you paid gas)"
            (some receipt.hash) (some receipt.blockNumber) ∧
        Effect.callClaimFees hookAddr (E.addrOf k) ∈
          (collectFees P E wallets userId password balanceOf nowMs apiResp configOk
              feeHookAddress receipt none).2)) := by
  constructor
  · intro hb
    constructor
    · cases hok : apiResp.ok <;> simp [collectFees, hw, hk, hb, hok, claimMessage]
    · intro hok
      simp [collectFees, hw, hk, hb, hok]
  · intro hb
    constructor
    · intro a m s
      cases hc : configOk <;> cases hf : feeHookAddress <;>
        simp [collectFees, hw, hk, hb, hc, hf]
    · intro hc hookAddr hf
      simp [collectFees, hw, hk, hb, hc, hf]

/-- Witness for C3 (amended): both branches at concrete inputs. -/
theorem collectFees_branch_witness :
    (collectFees idealPrim idealEthers sampleStore "u1" "pw0" (fun _ => 0) 42
        ⟨true, none⟩ true none ⟨"0xh", 1⟩ none).2 =
      [.postCollectFees (idealEthers.addrOf "priv0")
         (claimMessage (idealEthers.addrOf "priv0") 42)
         (idealEthers.signMsg "priv0" (claimMessage (idealEthers.addrOf "priv0") 42))] ∧
    (collectFees idealPrim idealEthers sampleStore "u1" "pw0" (fun _ => 5) 42
        ⟨true, none⟩ true (some "0xhook") ⟨"0xh", 7⟩ none).1 =
      .success "direct" "Fees collected directly from contract (you paid gas)"
        (some "0xh") (some 7) :=
  ⟨((collectFees_branch idealPrim idealEthers sampleStore "u1" "pw0" (fun _ => 0) 42
      ⟨true, none⟩ true none ⟨"0xh", 1⟩ sampleRecord rfl "priv0" rfl).1 rfl).1,
   (((collectFees_branch idealPrim idealEthers sampleStore "u1" "pw0" (fun _ => 5) 42
      ⟨true, none⟩ true (some "0xhook") ⟨"0xh", 7⟩ sampleRecord rfl "priv0" rfl).2
      (by decide)).2 rfl "0xhook" rfl).1⟩

/-- C4: transfer validates the destination address before any spend, and a
requested amount strictly above the on-chain balance fails with the
insufficient-balance error carrying both the actual balance and the
requested amount, with no transaction broadcast. -/
theorem transfer_balance_gate (P : CryptoPrim) (E : EthersPrim)
    (wallets : Store P) (userId password toAddress amount : String)
    (balanceOf : String → Nat) (receipt : Receipt) (thrownErr : Option String)
    (w : WalletRecord P) (hw : List.lookup userId wallets = some w)
    (k : String) (hk : decrypt P w.encryptedKey password = .ok k) :
    (E.isAddress toAddress = false →
        transfer P E wallets userId password toAddress amount balanceOf receipt thrownErr =
          (.failure "Invalid destination address", [])) ∧
    (E.isAddress toAddress = true →
      balanceOf (E.addrOf k) < E.parseEther amount →
        transfer P E wallets userId password toAddress amount balanceOf receipt none =
          (.failure ("Insufficient balance. You have " ++
             formatEther (balanceOf (E.addrOf k)) ++ " ETH but tried to send " ++
             amount ++ " ETH"), [])) := by
  constructor
  · intro ha
    simp [transfer, hw, ha]
  · intro ha hlt
    simp [transfer, hw, ha, hk, hlt]

/-- Witness for C4: a malformed destination fails before anything, and a
concrete over-balance transfer fails with the two amounts and no broadcast. -/
theorem transfer_balance_gate_witness :
    transfer idealPrim idealEthers sampleStore "u1" "pw0" "nohex" "5"
        (fun _ => 1) ⟨"0xh", 3⟩ none =
      (.failure "Invalid destination address", []) ∧
    transfer idealPrim idealEthers sampleStore "u1" "pw0" "0xdest" "seven"
        (fun _ => 1) ⟨"0xh", 3⟩ none =
      (.failure ("Insufficient balance. You have " ++ formatEther 1 ++
         " ETH but tried to send " ++ "seven" ++ " ETH"), []) :=
  ⟨(transfer_balance_gate idealPrim idealEthers sampleStore "u1" "pw0" "nohex" "5"
      (fun _ => 1) ⟨"0xh", 3⟩ none sampleRecord rfl "priv0" rfl).1 rfl,
   (transfer_balance_gate idealPrim idealEthers sampleStore "u1" "pw0" "0xdest" "seven"
      (fun _ => 1) ⟨"0xh", 3⟩ none sampleRecord rfl "priv0" rfl).2 rfl (by decide)⟩

/-- C8: the sign success result consists of exactly the address, the message
and the signature (never the decrypted key or the password), and every body
POSTed to the remote collection endpoint consists of exactly the public
address, the signed claim message and its signature. -/
theorem no_secret_material_emitted (P : CryptoPrim) (E : EthersPrim)
    (wallets : Store P) (userId password message : String)
    (balanceOf : String → Nat) (nowMs : Nat) (apiResp : ApiResponse)
    (configOk : Bool) (feeHookAddress : Option String) (receipt : Receipt)
    (w : WalletRecord P) (hw : List.lookup userId wallets = some w)
    (k : String) (hk : decrypt P w.encryptedKey password = .ok k) :
    signMessage P E wallets userId password message none =
      .success (E.addrOf k) message (E.signMsg k message) ∧
    (∀ a m s, Effect.postCollectFees a m s ∈
        (collectFees P E wallets userId password balanceOf nowMs apiResp configOk
            feeHookAddress receipt none).2 →
      a = E.addrOf k ∧ m = claimMessage (E.addrOf k) nowMs ∧
      s = E.signMsg k (claimMessage (E.addrOf k) nowMs)) := by
  constructor
  · simp [signMessage, hw, hk]
  · intro a m s hmem
    by_cases hb : balanceOf (E.addrOf k) = 0
    · cases hok : apiResp.ok <;>
        simp [collectFees, hw, hk, hb, hok, claimMessage] at hmem <;>
        exact ⟨hmem.1, hmem.2.1, hmem.2.2⟩
    · cases hc : configOk <;> cases hf : feeHookAddress <;>
        simp [collectFees, hw, hk, hb, hc, hf] at hmem

/-- Witness for C8 at concrete inputs. -/
theorem no_secret_material_emitted_witness :
    signMessage idealPrim idealEthers sampleStore "u1" "pw0" "hello" none =
      .success (idealEthers.addrOf "priv0") "hello"
        (idealEthers.signMsg "priv0" "hello") :=
  (no_secret_material_emitted idealPrim idealEthers sampleStore "u1" "pw0" "hello"
    (fun _ => 0) 42 ⟨true, none⟩ true none ⟨"0xh", 1⟩ sampleRecord rfl "priv0" rfl).1

/-- C9: after a successful decryption, an exception thrown inside the try
block is reported as Invalid password exactly when its message contains the
substring Unsupported state or the substring auth; in particular an
unrelated failure whose message merely contains auth is reported to the
caller as Invalid password. -/
theorem catch_clause_classification (P : CryptoPrim) (E : EthersPrim)
    (wallets : Store P) (userId password message errMsg : String)
    (w : WalletRecord P) (hw : List.lookup userId wallets = some w)
    (k : String) (hk : decrypt P w.encryptedKey password = .ok k) :
    signMessage P E wallets userId password message (some errMsg) =
      .failure (if isAuthLikeError errMsg then "Invalid password"
                else "Signing failed: " ++ errMsg) ∧
    (signMessage P E wallets userId password message (some errMsg) =
        .failure "Invalid password" ↔ isAuthLikeError errMsg = true) ∧
    isAuthLikeError "network authentication failed" = true := by
  have h1 : signMessage P E wallets userId password message (some errMsg) =
      .failure (catchError "Signing failed: " errMsg) := by
    simp [signMessage, hw, hk]
  refine ⟨?_, ?_, rfl⟩
  · rw [h1]; rfl
  · rw [h1]
    unfold catchError
    cases hA : isAuthLikeError errMsg
    · simp only [Bool.false_eq_true, if_false, iff_false]
      intro hcontra
      exact signing_failed_ne errMsg (by injection hcontra)
    · simp

/-- Witness for C9: a network authentication failure after successful
decryption is reported as Invalid password. -/
theorem catch_clause_classification_witness :
    signMessage idealPrim idealEthers sampleStore "u1" "pw0" "hello"
        (some "network authentication failed") = .failure "Invalid password" :=
  (catch_clause_classification idealPrim idealEthers sampleStore "u1" "pw0" "hello"
    "network authentication failed" sampleRecord rfl "priv0" rfl).2.1.mpr rfl

end Vibecoins
